import Mathlib

/-!
# Verification of `cppcheck.py`

Shallow embedding of the repository's single script `cppcheck.py`: a driver
that locates a compile-command database `compile_commands.json` inside a build
directory, filters out records that are irrelevant for static analysis,
writes the filtered database to `compile_commands_cppcheck.json`, and invokes
the external `cppcheck` analyzer against it.

The script is straight-line code with a handful of host-environment queries
(file existence, executable lookup, CPU count) and effects (one file write,
one child process).  We model the environment as a structure of explicit
query results and the script as a pure function from that environment and the
single command-line argument to a result record that captures the exit
status, the stderr message, the file write (path, records, and the `indent`
argument handed to the JSON serializer) and the child invocation (argument
vector and the `shell` flag).
-/

namespace Cppcheck

/-- One compile-command record.  The script only ever inspects the optional
`output` and `file` fields; every other key/value pair of the record is
carried opaquely in `other` and never read. -/
structure Record where
  output : Option String
  file : Option String
  other : List (String × String)
  deriving DecidableEq, Repr

/-- Python's substring operator `pat in s`, as contiguous-substring
containment on the underlying character lists (case-sensitive, literal). -/
def strContains (s pat : String) : Bool :=
  decide (pat.data <:+: s.data)

/-- `is_valid_entry` from `cppcheck.py` (lines 27-41): compute a key from the
`output` field if present, else the `file` field if present; a record without
a key is valid; a record with a key is valid iff the key contains none of the
four denylisted substrings. -/
def is_valid_entry (obj : Record) : Bool :=
  let key : Option String :=
    match obj.output with
    | some v => some v
    | none => obj.file
  match key with
  | none => true
  | some key =>
      !strContains key "_deps" &&
      !strContains key "cerlibTests.dir" &&
      !strContains key "embedded_files" &&
      !strContains key "stb.c"

/-- The list-comprehension filter of line 44:
`json_doc = [obj for obj in json_doc if is_valid_entry(obj)]`. -/
def filter_entries (json_doc : List Record) : List Record :=
  json_doc.filter is_valid_entry

/-- `os.path.join a b` restricted to the two-component form the script uses:
an absolute second component wins; otherwise the components are joined with a
single separator. -/
def pathJoin (a b : String) : String :=
  if b.data.head? = some '/' then b
  else if a = "" then b
  else if a.data.getLast? = some '/' then a ++ b
  else a ++ "/" ++ b

/-- The host environment the script queries: `os.path.exists`,
`shutil.which`, the parsed contents of `compile_commands.json`
(`json.load`), `multiprocessing.cpu_count()`, and the exit status the
spawned analyzer would return. -/
structure Env where
  fileExists : String → Bool
  which : String → Option String
  dbContents : List Record
  cpu_count : Nat
  childExitCode : Nat

/-- The one file write the script performs: `f.write(json.dumps(json_doc,
indent=2))`, recorded as the target path, the serialized record list, and
the `indent` argument passed to the serializer. -/
structure WriteEvent where
  path : String
  content : List Record
  indent : Nat
  deriving DecidableEq, Repr

/-- The one child-process spawn: `subprocess.check_call(argv, shell=False)`,
recorded as the literal argument vector and the `shell` flag. -/
structure Invocation where
  argv : List String
  shell : Bool
  deriving DecidableEq, Repr

/-- Observable outcome of a run of the script: its own exit status, the
message passed to `sys.exit` (printed to stderr) if any, the file write if
one happened, and the child invocation if one was attempted. -/
structure RunResult where
  exitCode : Nat
  errMsg : Option String
  written : Option WriteEvent
  invoked : Option Invocation
  deriving DecidableEq, Repr

/-- The whole script as a function of the environment and its single
positional argument `build_dir`.  `sys.exit(message)` exits with status 1;
an uncaught `CalledProcessError` from `subprocess.check_call` also
terminates the interpreter with status 1, so the final exit status is 0
exactly when the child exited 0. -/
def run (env : Env) (build_dir : String) : RunResult :=
  let compile_commands_json := pathJoin build_dir "compile_commands.json"
  if !env.fileExists compile_commands_json then
    { exitCode := 1
      errMsg := some ("error: compile_commands.json not found in " ++ build_dir)
      written := none
      invoked := none }
  else
    match env.which "cppcheck" with
    | none =>
        { exitCode := 1
          errMsg := some "error: unable to find cppcheck"
          written := none
          invoked := none }
    | some cppcheck_cmd =>
        let json_doc := filter_entries env.dbContents
        let output_filename := pathJoin build_dir "compile_commands_cppcheck.json"
        let num_jobs := env.cpu_count
        { exitCode := if env.childExitCode = 0 then 0 else 1
          errMsg := none
          written := some { path := output_filename, content := json_doc, indent := 2 }
          invoked := some
            { argv := [cppcheck_cmd,
                "--project=" ++ output_filename,
                "--enable=warning",
                "--std=c++20",
                "-j", toString num_jobs]
              shell := false } }

/-! ## Spec-side formulation of the filtering rule (for claim C1) -/

/-- A key is clean when it contains none of the four denylisted literal
substrings, stated at the propositional level with list-infix containment
(the spec's "case-sensitive, literal substring containment"). -/
def KeyClean (k : String) : Prop :=
  ¬ ("_deps".data <:+: k.data) ∧
  ¬ ("cerlibTests.dir".data <:+: k.data) ∧
  ¬ ("embedded_files".data <:+: k.data) ∧
  ¬ ("stb.c".data <:+: k.data)

/-- The keep rule exactly as the specification words it: prefer `output`,
else `file`, else no key; no key means kept; a key must be clean. -/
def SpecKeeps (obj : Record) : Prop :=
  match obj.output with
  | some k => KeyClean k
  | none =>
      match obj.file with
      | some k => KeyClean k
      | none => True

/-! ## Claim theorems -/

/-- C1: `is_valid_entry` keeps a record exactly as the spec describes — key
is `output` if present else `file` if present else none; no key means always
kept regardless of other fields; with a key, kept iff the key contains none
of the four literal substrings. -/
theorem is_valid_entry_iff_spec (obj : Record) :
    is_valid_entry obj = true ↔ SpecKeeps obj := by
  rcases obj with ⟨o, f, x⟩
  cases o <;> cases f <;>
    simp [is_valid_entry, SpecKeeps, KeyClean, strContains, and_assoc]

/-- An environment whose `compile_commands.json` exists but where no
`cppcheck` executable resolves on the search path. -/
def noToolEnv : Env :=
  { fileExists := fun _ => true
    which := fun _ => none
    dbContents := [{ output := some "build/src/foo.cpp.o", file := none, other := [] }]
    cpu_count := 4
    childExitCode := 0 }

/-- C2 counterexample: with the database present but `cppcheck` missing, the
script exits non-zero having written nothing — the claim asserts the filtered
database file was written on this path, but the executable lookup (line 16)
precedes load/filter/persist (lines 22-49), so no write occurs. -/
theorem run_no_tool_counterexample :
    (run noToolEnv "build").exitCode ≠ 0 ∧ (run noToolEnv "build").written = none :=
  ⟨by decide, rfl⟩

/-- C2 (amended): if the database file exists but no `cppcheck` executable is
resolvable, the script terminates with non-zero status *without* writing the
filtered database file and before any child-process invocation is attempted;
the step order is: validate inputs, locate tool, load, filter, persist,
invoke. -/
theorem run_no_tool (env : Env) (build_dir : String)
    (hdb : env.fileExists (pathJoin build_dir "compile_commands.json") = true)
    (htool : env.which "cppcheck" = none) :
    (run env build_dir).exitCode ≠ 0 ∧ (run env build_dir).written = none ∧
      (run env build_dir).invoked = none := by
  simp [run, hdb, htool]

/-- C2 witness: the amended theorem applied at a concrete environment. -/
theorem run_no_tool_witness :
    noToolEnv.fileExists (pathJoin "build" "compile_commands.json") = true ∧
    noToolEnv.which "cppcheck" = none ∧
    ((run noToolEnv "build").exitCode ≠ 0 ∧ (run noToolEnv "build").written = none ∧
      (run noToolEnv "build").invoked = none) :=
  ⟨rfl, rfl, run_no_tool noToolEnv "build" rfl rfl⟩

/-- C3: the script's own exit status is 0 iff the database file existed, the
analyzer was found on the search path, and the spawned child exited with
status 0; a non-zero child status propagates untranslated as failure. -/
theorem run_exitCode_zero_iff (env : Env) (build_dir : String) :
    (run env build_dir).exitCode = 0 ↔
      (env.fileExists (pathJoin build_dir "compile_commands.json") = true ∧
        (env.which "cppcheck").isSome = true ∧
        env.childExitCode = 0) := by
  rcases hf : env.fileExists (pathJoin build_dir "compile_commands.json") <;>
    rcases ht : env.which "cppcheck" with _ | cmd <;>
      by_cases hc : env.childExitCode = 0 <;>
        simp [run, hf, ht, hc]

/-- C4: on the success path the child is spawned with exactly the resolved
executable followed by `--project=<filtered file>`, `--enable=warning`,
`--std=c++20`, `-j`, `<cpu count>`, as a literal argument vector with
`shell=False`. -/
theorem run_invocation (env : Env) (build_dir cmd : String)
    (hdb : env.fileExists (pathJoin build_dir "compile_commands.json") = true)
    (htool : env.which "cppcheck" = some cmd) :
    (run env build_dir).invoked = some
      { argv := [cmd,
          "--project=" ++ pathJoin build_dir "compile_commands_cppcheck.json",
          "--enable=warning",
          "--std=c++20",
          "-j", toString env.cpu_count]
        shell := false } := by
  simp [run, hdb, htool]

/-- An environment on the full success path: database present, `cppcheck`
resolvable, a database holding one clean and one denylisted record. -/
def okEnv : Env :=
  { fileExists := fun _ => true
    which := fun _ => some "/usr/bin/cppcheck"
    dbContents :=
      [{ output := some "build/src/foo.cpp.o", file := none, other := [] },
       { output := some "build/_deps/dep.cpp.o", file := none, other := [] }]
    cpu_count := 8
    childExitCode := 0 }

/-- C4 witness: the invocation theorem applied at a concrete environment. -/
theorem run_invocation_witness :
    okEnv.fileExists (pathJoin "build" "compile_commands.json") = true ∧
    okEnv.which "cppcheck" = some "/usr/bin/cppcheck" ∧
    (run okEnv "build").invoked = some
      { argv := ["/usr/bin/cppcheck",
          "--project=" ++ pathJoin "build" "compile_commands_cppcheck.json",
          "--enable=warning",
          "--std=c++20",
          "-j", toString okEnv.cpu_count]
        shell := false } :=
  ⟨rfl, rfl, run_invocation okEnv "build" "/usr/bin/cppcheck" rfl rfl⟩

/-- C5: if `<build_dir>/compile_commands.json` does not exist, the script
terminates with non-zero status, writes no output file, attempts no
invocation, and its error message names the given directory. -/
theorem run_missing_db (env : Env) (build_dir : String)
    (hdb : env.fileExists (pathJoin build_dir "compile_commands.json") = false) :
    (run env build_dir).exitCode ≠ 0 ∧
    (run env build_dir).written = none ∧
    (run env build_dir).invoked = none ∧
    ∃ msg, (run env build_dir).errMsg = some msg ∧ build_dir.data <:+: msg.data := by
  refine ⟨?_, ?_, ?_, "error: compile_commands.json not found in " ++ build_dir, ?_, ?_⟩ <;>
    simp [run, hdb]
  exact ⟨"error: compile_commands.json not found in ".data, [], by simp⟩

/-- An environment in which no file exists at all. -/
def missingDbEnv : Env :=
  { fileExists := fun _ => false
    which := fun _ => some "/usr/bin/cppcheck"
    dbContents := []
    cpu_count := 2
    childExitCode := 0 }

/-- C5 witness: the missing-database theorem applied at a concrete
environment and directory. -/
theorem run_missing_db_witness :
    missingDbEnv.fileExists (pathJoin "mybuild" "compile_commands.json") = false ∧
    ((run missingDbEnv "mybuild").exitCode ≠ 0 ∧
      (run missingDbEnv "mybuild").written = none ∧
      (run missingDbEnv "mybuild").invoked = none ∧
      ∃ msg, (run missingDbEnv "mybuild").errMsg = some msg ∧
        "mybuild".data <:+: msg.data) :=
  ⟨rfl, run_missing_db missingDbEnv "mybuild" rfl⟩

/-- C6: the filtered output is an order-preserving subsequence of the input —
every output record is an input record, unmodified, and relative order is
preserved (`List.Sublist` is exactly this property). -/
theorem filter_entries_sublist (json_doc : List Record) :
    List.Sublist (filter_entries json_doc) json_doc :=
  List.filter_sublist json_doc

/-- C7: the filter is idempotent — re-filtering an already-filtered sequence
removes no further records. -/
theorem filter_entries_idem (json_doc : List Record) :
    filter_entries (filter_entries json_doc) = filter_entries json_doc := by
  simp [filter_entries, List.filter_filter]

/-- C8: on the success path the filtered sequence is written to
`<build_dir>/compile_commands_cppcheck.json`, serialized with the JSON
serializer at two-space indentation (`indent=2`). -/
theorem run_writes_filtered (env : Env) (build_dir cmd : String)
    (hdb : env.fileExists (pathJoin build_dir "compile_commands.json") = true)
    (htool : env.which "cppcheck" = some cmd) :
    (run env build_dir).written = some
      { path := pathJoin build_dir "compile_commands_cppcheck.json"
        content := filter_entries env.dbContents
        indent := 2 } := by
  simp [run, hdb, htool]

/-- C8 witness: the persistence theorem applied at a concrete environment;
the denylisted record is gone from the written content. -/
theorem run_writes_filtered_witness :
    okEnv.fileExists (pathJoin "build" "compile_commands.json") = true ∧
    okEnv.which "cppcheck" = some "/usr/bin/cppcheck" ∧
    (run okEnv "build").written = some
      { path := pathJoin "build" "compile_commands_cppcheck.json"
        content := filter_entries okEnv.dbContents
        indent := 2 } :=
  ⟨rfl, rfl, run_writes_filtered okEnv "build" "/usr/bin/cppcheck" rfl rfl⟩

/-- C9: concrete filtering instances — an `output` under `_deps` is excluded,
a clean `output` is retained, and a `file` containing `stb.c` anywhere
(exact tail or mid-path) is excluded. -/
theorem concrete_filtering_instances :
    is_valid_entry { output := some "build/_deps/foo.cpp.o", file := none, other := [] }
        = false ∧
    is_valid_entry { output := some "build/src/foo.cpp.o", file := none, other := [] }
        = true ∧
    is_valid_entry { output := none, file := some "/vendor/stb.c", other := [] }
        = false ∧
    is_valid_entry { output := none, file := some "/x/stb.c.bak", other := [] }
        = false := by
  decide

/-- C10: when `output` is present the decision is a function of the `output`
value alone — the `file` field and all other fields are ignored; in
particular a record with a clean `output` is retained even though its `file`
contains the denylisted substring `stb.c`. -/
theorem output_field_decides :
    (∀ (o : String) (f₁ f₂ : Option String) (x₁ x₂ : List (String × String)),
        is_valid_entry { output := some o, file := f₁, other := x₁ } =
        is_valid_entry { output := some o, file := f₂, other := x₂ }) ∧
    is_valid_entry
      { output := some "build/src/foo.cpp.o", file := some "/vendor/stb.c", other := [] }
      = true :=
  ⟨fun _ _ _ _ _ => rfl, by decide⟩

end Cppcheck
